import Mathlib

/-!
# Verification of the `dynamic_launcher` portal client module

Shallow embedding of `src/desktop/dynamic_launcher.rs` (crate `ashpd`):
the data types (`LauncherType`, `IconType`, `LauncherIcon`,
`PrepareInstallOptions`) together with their wire (de)serialization
semantics as derived by `serde`, `serde_repr`, `enumflags2` and
`zbus::zvariant`, and the facade methods that the claims mention.

Types that live outside this module (the `Icon` value type, the
`Request`/`Proxy` machinery from `super`/`crate::proxy`) are modelled
from the spec where a claim needs them; each such definition carries a
doc comment saying so.
-/

namespace DynamicLauncher

/-- Wire values of the message bus, as far as this module needs them:
strings, unsigned 32-bit integers, booleans, byte arrays, string arrays,
structures (tuples), variants, and string-keyed dictionaries. -/
inductive WireValue where
  | str : String → WireValue
  | u32 : Nat → WireValue
  | boolV : Bool → WireValue
  | bytes : List Nat → WireValue
  | strArr : List String → WireValue
  | tuple : List WireValue → WireValue
  | variant : WireValue → WireValue
  | dict : List (String × WireValue) → WireValue

/-- Decode errors of the typed decoder (spec §4.2 taxonomy; `serde`
surfaces an unknown enum tag as an unknown-variant error and a shape
mismatch as a signature/type error). -/
inductive DecodeError where
  | unknownVariant
  | signatureMismatch
  | truncated
deriving DecidableEq, Repr

/-! ## `LauncherType`

Source, lines 50–63: `#[bitflags] #[repr(u32)] enum LauncherType
{ Application, WebApplication }` with `Serialize_repr`/`Deserialize_repr`.
The `#[bitflags]` attribute (enumflags2) assigns each variant without an
explicit value the lowest unused bit, in declaration order, as its actual
discriminant: `Application = 1`, `WebApplication = 2`. -/

inductive LauncherType where
  | Application
  | WebApplication
deriving DecidableEq, Repr

/-- Position of the variant in declaration order. -/
def LauncherType.index : LauncherType → Nat
  | .Application => 0
  | .WebApplication => 1

/-- Discriminant assigned by the `#[bitflags]` attribute: the lowest
unused bit in declaration order. -/
def LauncherType.discriminant : LauncherType → Nat
  | .Application => 1
  | .WebApplication => 2

/-- `Serialize_repr` with `#[repr(u32)]` serializes a variant as its
discriminant, as an unsigned 32-bit integer. -/
def LauncherType.serializeRepr (t : LauncherType) : Nat :=
  t.discriminant

/-- All variants, in declaration order. -/
def LauncherType.all : List LauncherType :=
  [.Application, .WebApplication]

/-- `BitFlags<LauncherType>` deserialization (`supported_launcher_types`
property, source lines 259–263): the wire carries a packed `u32`;
`enumflags2::BitFlags::from_bits` succeeds exactly when every set bit is
a known flag, yielding the set of flags whose bit is set. -/
def LauncherType.decodeBitFlags (n : Nat) : Except DecodeError (List LauncherType) :=
  if n % 2 ^ 32 == n && n &&& 3 == n then
    .ok (LauncherType.all.filter (fun t => n &&& t.discriminant != 0))
  else
    .error .unknownVariant

/-! ## `IconType`

Source, lines 65–76: `enum IconType { Png, Jpeg, Svg }` with
`#[serde(rename_all = "lowercase")]` and `#[zvariant(signature = "s")]`:
serialized as the lowercase variant name, deserialized from exactly
those strings, anything else being an unknown-variant error. -/

inductive IconType where
  | Png
  | Jpeg
  | Svg
deriving DecidableEq, Repr

/-- Serde serialization of `IconType`: the lowercase variant name. -/
def IconType.serialize : IconType → String
  | .Png => "png"
  | .Jpeg => "jpeg"
  | .Svg => "svg"

/-- Serde deserialization of `IconType` from its string tag. -/
def IconType.deserialize (s : String) : Except DecodeError IconType :=
  if s = "png" then .ok .Png
  else if s = "jpeg" then .ok .Jpeg
  else if s = "svg" then .ok .Svg
  else .error .unknownVariant

/-- Wire signature of `IconType`, from `#[zvariant(signature = "s")]`. -/
def IconType.signature : String := "s"

/-! ## `Icon` and `LauncherIcon` -/

/-- Modelled from the spec: the `Icon` type comes from `super` and is not
under `src/`. Spec §3 (IconValue): "a tagged union of {bytes, well-known
name, identified path}", sent on the wire inside a variant and otherwise
opaque to this module. -/
inductive Icon where
  | bytes : List Nat → Icon
  | names : List String → Icon
  | uri : String → Icon
deriving DecidableEq, Repr

/-- Modelled from the spec: wire form of an `Icon` (the variant's inner
value), one shape per union case, opaque to this module. -/
def Icon.encodeWire : Icon → WireValue
  | .bytes bs => .bytes bs
  | .names ns => .strArr ns
  | .uri u => .str u

/-- Modelled from the spec: decoding of an `Icon` from the variant's
inner value, the inverse of the three shapes of `Icon.encodeWire`. -/
def Icon.decodeWire : WireValue → Except DecodeError Icon
  | .bytes bs => .ok (.bytes bs)
  | .strArr ns => .ok (.names ns)
  | .str u => .ok (.uri u)
  | _ => .error .signatureMismatch

/-- Wire signature of `Icon`: a variant. -/
def Icon.signature : String := "v"

/-- Wire signature of an unsigned 32-bit integer. -/
def u32Signature : String := "u"

/-- Source, line 81: `struct LauncherIcon(Icon, IconType, u32)`; field
accessors `icon`, `type_`, `size` (lines 83–98). -/
structure LauncherIcon where
  icon : Icon
  type_ : IconType
  size : Nat
deriving DecidableEq, Repr

/-- Wire signature of `LauncherIcon`, from
`#[zvariant(signature = "(vsu)")]` (line 79): a structure of the three
component signatures in field order. -/
def LauncherIcon.signature : String :=
  "(" ++ Icon.signature ++ IconType.signature ++ u32Signature ++ ")"

/-- Deserialization of `LauncherIcon` (derived `Deserialize` on the
3-tuple struct, line 78): a 3-element structure of a variant, the
`IconType` tag string and a `u32`, each field decoded in order. -/
def LauncherIcon.decode : WireValue → Except DecodeError LauncherIcon
  | .tuple [.variant v, .str tag, .u32 n] =>
      match Icon.decodeWire v, IconType.deserialize tag with
      | .ok icon, .ok t => .ok ⟨icon, t, n⟩
      | .error e, _ => .error e
      | .ok _, .error e => .error e
  | _ => .error .signatureMismatch

/-- Modelled from the spec: serialization of a `LauncherIcon` triple
(the module only derives `Deserialize`; spec §8 states the round-trip
over the triple's wire shape of §6: `(generic value, type tag, size)`). -/
def LauncherIcon.encode (li : LauncherIcon) : WireValue :=
  .tuple [.variant li.icon.encodeWire, .str li.type_.serialize, .u32 li.size]

/-! ## `PrepareInstallOptions` -/

/-- Modelled from the spec: `HandleToken` comes from `super` and is not
under `src/`. Spec §3: "an opaque, process-unique string identifying one
logical request instance", serialized as a string. -/
structure HandleToken where
  token : String
deriving DecidableEq, Repr

/-- Source, lines 100–110: the `PrepareInstall` options record, with a
handle token, a launcher type, and four optional fields. -/
structure PrepareInstallOptions where
  handle_token : HandleToken
  modal : Option Bool
  launcher_type : LauncherType
  target : Option String
  editable_name : Option Bool
  editable_icon : Option Bool
deriving DecidableEq, Repr

/-- Builder setter `modal` (source lines 114–117); named `setModal` here
because the field already bears the source name. -/
def PrepareInstallOptions.setModal (o : PrepareInstallOptions)
    (modal : Option Bool) : PrepareInstallOptions :=
  { o with modal := modal }

/-- Builder setter `launcher_type` (source lines 120–123). -/
def PrepareInstallOptions.setLauncherType (o : PrepareInstallOptions)
    (launcher_type : LauncherType) : PrepareInstallOptions :=
  { o with launcher_type := launcher_type }

/-- Builder setter `target` (source lines 127–130): stores an owned copy
of the given string, or unsets the field on `none`. -/
def PrepareInstallOptions.setTarget (o : PrepareInstallOptions)
    (target : Option String) : PrepareInstallOptions :=
  { o with target := target.map id }

/-- Builder setter `editable_name` (source lines 133–136). -/
def PrepareInstallOptions.setEditableName (o : PrepareInstallOptions)
    (editable_name : Option Bool) : PrepareInstallOptions :=
  { o with editable_name := editable_name }

/-- Builder setter `editable_icon` (source lines 139–142). -/
def PrepareInstallOptions.setEditableIcon (o : PrepareInstallOptions)
    (editable_icon : Option Bool) : PrepareInstallOptions :=
  { o with editable_icon := editable_icon }

/-- `SerializeDict` on `PrepareInstallOptions` (line 100): each field
becomes a dict entry keyed by the field name, in declaration order;
fields of `Option` type are emitted only when set, never as a null
entry. `handle_token` serializes as a string and `launcher_type` via
`Serialize_repr` as a `u32`. -/
def PrepareInstallOptions.serializeDict (o : PrepareInstallOptions) :
    List (String × WireValue) :=
  [("handle_token", .str o.handle_token.token)]
    ++ (match o.modal with
        | some b => [("modal", .boolV b)]
        | none => [])
    ++ [("launcher_type", .u32 o.launcher_type.serializeRepr)]
    ++ (match o.target with
        | some s => [("target", .str s)]
        | none => [])
    ++ (match o.editable_name with
        | some b => [("editable_name", .boolV b)]
        | none => [])
    ++ (match o.editable_icon with
        | some b => [("editable_icon", .boolV b)]
        | none => [])

/-- First dict entry with the given key. -/
def lookupEntry (k : String) : List (String × WireValue) → Option WireValue
  | [] => none
  | (k', v) :: rest => if k = k' then some v else lookupEntry k rest

/-- Modelled from the spec: decoding of an optional boolean field of an
options dict (spec §3: "absent keys mean use broker default", so an
absent key yields the unset field). -/
def decodeOptBoolField (k : String) (d : List (String × WireValue)) :
    Except DecodeError (Option Bool) :=
  match lookupEntry k d with
  | none => .ok none
  | some (.boolV b) => .ok (some b)
  | some _ => .error .signatureMismatch

/-- Modelled from the spec: decoding of an optional string field of an
options dict, absent key meaning unset. -/
def decodeOptStrField (k : String) (d : List (String × WireValue)) :
    Except DecodeError (Option String) :=
  match lookupEntry k d with
  | none => .ok none
  | some (.str s) => .ok (some s)
  | some _ => .error .signatureMismatch

/-- Modelled from the spec: deserialization of a `LauncherType` via its
`Deserialize_repr` derive, the inverse of `serializeRepr` on the two
assigned discriminants. -/
def LauncherType.deserializeRepr (n : Nat) : Except DecodeError LauncherType :=
  if n = 1 then .ok .Application
  else if n = 2 then .ok .WebApplication
  else .error .unknownVariant

/-- Modelled from the spec: the receiving side of the options dict is
the broker, not this crate, so decoding follows spec §3/§8: read each
named field, treating an absent optional key as unset. -/
def PrepareInstallOptions.decodeDict (d : List (String × WireValue)) :
    Except DecodeError PrepareInstallOptions := do
  let tok ← match lookupEntry "handle_token" d with
    | some (.str s) => Except.ok (HandleToken.mk s)
    | some _ => Except.error .signatureMismatch
    | none => Except.error .truncated
  let modal ← decodeOptBoolField "modal" d
  let lt ← match lookupEntry "launcher_type" d with
    | some (.u32 n) => LauncherType.deserializeRepr n
    | some _ => Except.error .signatureMismatch
    | none => Except.error .truncated
  let target ← decodeOptStrField "target" d
  let en ← decodeOptBoolField "editable_name" d
  let ei ← decodeOptBoolField "editable_icon" d
  .ok ⟨tok, modal, lt, target, en, ei⟩

/-! ## Facade methods -/

/-- An issued method call: the method name and its positional
arguments, in order. -/
structure CallMessage where
  method : String
  args : List WireValue

/-- `launch` (source lines 249–253): calls `"Launch"` with the desktop
file id and a freshly created, empty options map; the activation-token
option is left unhandled (`TODO` in the source), so nothing is ever
inserted into that map. -/
def launch (desktop_file_id : String) : CallMessage :=
  ⟨"Launch", [.str desktop_file_id, .dict []]⟩

/-- Options mapping sent by a call: the entries of its last argument
when that argument is a dict. -/
def CallMessage.optionsSent (m : CallMessage) : Option (List (String × WireValue)) :=
  match m.args.getLast? with
  | some (.dict d) => some d
  | _ => none

/-! ## The pending-request machinery used by `prepare_install` -/

/-- Response statuses of a completion signal (spec §3:
`{Success, Cancelled, Other/Failed}`). -/
inductive ResponseStatus where
  | Success
  | Cancelled
  | Other
deriving DecidableEq, Repr

/-- Errors surfaced by a request facade (spec §7): the user declining,
any other non-success completion, and decode failures. -/
inductive PortalError where
  | cancelled
  | otherFailed
  | decode : DecodeError → PortalError
deriving DecidableEq, Repr

/-- Modelled from the spec: a pending `Request` handle (`super::Request`
and `crate::proxy::Proxy::request` are not under `src/`). Spec §4.3: the
request is correlated by the handle token generated before the call. -/
structure PendingRequest where
  handle : HandleToken
deriving DecidableEq, Repr

/-- `prepare_install` (source lines 166–180): issues `"PrepareInstall"`
with the parent window, the name, the icon and the options dict as
positional arguments, correlated by `options.handle_token`; returns the
pending request immediately. The request machinery behind `Proxy` is
modelled from the spec (§4.3–§4.4). -/
def prepare_install (parent_window : String) (name : String) (icon : Icon)
    (options : PrepareInstallOptions) : CallMessage × PendingRequest :=
  (⟨"PrepareInstall",
    [.str parent_window, .str name, .variant icon.encodeWire,
     .dict options.serializeDict]⟩,
   ⟨options.handle_token⟩)

/-- Decoder for the typed `(String, String)` result of
`prepare_install`: a 2-element structure of two strings. -/
def decodeStringPair : WireValue → Except DecodeError (String × String)
  | .tuple [.str a, .str b] => .ok (a, b)
  | _ => .error .signatureMismatch

/-- Modelled from the spec: delivery of a completion signal to a pending
request (spec §4.3 Completed state, §4.4 error surfacing): on `Success`
the payload is decoded into the typed result; any other status is a
typed error. -/
def PendingRequest.response (_req : PendingRequest) (status : ResponseStatus)
    (payload : WireValue) : Except PortalError (String × String) :=
  match status with
  | .Success =>
      match decodeStringPair payload with
      | .ok r => .ok r
      | .error e => .error (.decode e)
  | .Cancelled => .error .cancelled
  | .Other => .error .otherFailed

/-! ## Claims -/

/-- C1: serializing an `IconType` value produces exactly the lowercase
tag strings `"png"` for `Png`, `"jpeg"` for `Jpeg`, `"svg"` for `Svg`,
and deserializing each of those three strings yields the corresponding
variant. -/
theorem C1_iconType_tags :
    IconType.serialize .Png = "png" ∧
    IconType.serialize .Jpeg = "jpeg" ∧
    IconType.serialize .Svg = "svg" ∧
    IconType.deserialize "png" = .ok .Png ∧
    IconType.deserialize "jpeg" = .ok .Jpeg ∧
    IconType.deserialize "svg" = .ok .Svg := by
  refine ⟨rfl, rfl, rfl, ?_, ?_, ?_⟩ <;> rfl

/-- C2: the decoded icon result `LauncherIcon` is a 3-element structure
whose components are, in order, a generic icon value (a variant), a
type tag string and an unsigned 32-bit size; its wire signature is
`"(vsu)"`, each component signature a single character, and every wire
value that decodes successfully has exactly that 3-tuple shape. -/
theorem C2_launcherIcon_shape :
    LauncherIcon.signature = "(vsu)" ∧
    Icon.signature.length = 1 ∧
    IconType.signature.length = 1 ∧
    u32Signature.length = 1 ∧
    (∀ w li, LauncherIcon.decode w = .ok li →
      ∃ v s, w = .tuple [.variant v, .str s, .u32 li.size] ∧
        Icon.decodeWire v = .ok li.icon ∧
        IconType.deserialize s = .ok li.type_) := by
  refine ⟨rfl, rfl, rfl, rfl, ?_⟩
  intro w li h
  unfold LauncherIcon.decode at h
  split at h
  · rename_i v tag n
    split at h
    · rename_i icon t hIc hTag
      cases h
      exact ⟨v, tag, rfl, hIc, hTag⟩
    · exact absurd h (by simp)
    · exact absurd h (by simp)
  · exact absurd h (by simp)

/-- C2 witness: a concrete successful decode exhibiting the 3-tuple
shape. -/
theorem C2_launcherIcon_shape_witness :
    ∃ v s,
      (WireValue.tuple [.variant (.bytes [1, 2]), .str "png", .u32 64]) =
        .tuple [.variant v, .str s,
          .u32 (LauncherIcon.mk (.bytes [1, 2]) .Png 64).size] ∧
      Icon.decodeWire v = .ok (LauncherIcon.mk (.bytes [1, 2]) .Png 64).icon ∧
      IconType.deserialize s = .ok (LauncherIcon.mk (.bytes [1, 2]) .Png 64).type_ :=
  C2_launcherIcon_shape.2.2.2.2 _ ⟨.bytes [1, 2], .Png, 64⟩ rfl

/-- C3: for every `PrepareInstallOptions` record, encoding to the wire
dictionary and decoding back yields the same record (so exactly the set
fields are present), and each optional key appears in the dictionary
exactly when the corresponding field is set; an unset field produces no
entry at all (the wire value type has no null). -/
theorem C3_options_roundtrip (o : PrepareInstallOptions) :
    PrepareInstallOptions.decodeDict o.serializeDict = .ok o ∧
    (lookupEntry "modal" o.serializeDict).isSome = o.modal.isSome ∧
    (lookupEntry "target" o.serializeDict).isSome = o.target.isSome ∧
    (lookupEntry "editable_name" o.serializeDict).isSome = o.editable_name.isSome ∧
    (lookupEntry "editable_icon" o.serializeDict).isSome = o.editable_icon.isSome := by
  obtain ⟨⟨tok⟩, m, lt, tg, en, ei⟩ := o
  cases m <;> cases lt <;> cases tg <;> cases en <;> cases ei <;>
    exact ⟨rfl, rfl, rfl, rfl, rfl⟩

/-- C4: the supported-launcher-types property is a packed unsigned
32-bit integer in which bit N is the N-th `LauncherType` member in
declaration order; decoding `1` yields exactly `Application`, decoding
`2` yields exactly `WebApplication`. -/
theorem C4_bitflags_bits :
    (∀ t : LauncherType, t.discriminant = 2 ^ t.index) ∧
    LauncherType.decodeBitFlags 1 = .ok [.Application] ∧
    LauncherType.decodeBitFlags 2 = .ok [.WebApplication] := by
  refine ⟨fun t => ?_, rfl, rfl⟩
  cases t <;> rfl

/-- C5 counterexample: the claim that `Application` encodes to `0` (and
`WebApplication` to `1`) is false — the bitflags attribute assigns the
discriminants `1` and `2`, and `Serialize_repr` emits the discriminant. -/
theorem C5_counterexample :
    ¬ (LauncherType.serializeRepr .Application = 0 ∧
       LauncherType.serializeRepr .WebApplication = 1) := by
  decide

/-- C5 (amended): a `LauncherType` is encoded as its assigned
discriminant — the lowest unused bit in declaration order — with 32-bit
width: `Application` encodes to `1` and `WebApplication` to `2`, and
that value is what the `launcher_type` entry of the options dictionary
carries. -/
theorem C5_launcherType_repr :
    LauncherType.serializeRepr .Application = 1 ∧
    LauncherType.serializeRepr .WebApplication = 2 ∧
    (∀ o : PrepareInstallOptions,
      lookupEntry "launcher_type" o.serializeDict =
        some (.u32 o.launcher_type.serializeRepr)) := by
  refine ⟨rfl, rfl, fun o => ?_⟩
  obtain ⟨⟨tok⟩, m, lt, tg, en, ei⟩ := o
  cases m <;> rfl

/-- C6: decoding a 3-tuple icon reply with tag `"png"`, `"jpeg"` or
`"svg"` succeeds with the corresponding format, value and size, and
decoding a reply whose tag is none of the three fails with an
unknown-variant error rather than coercing. -/
theorem C6_icon_tag_decode :
    (∀ bs n, LauncherIcon.decode
        (.tuple [.variant (.bytes bs), .str "png", .u32 n]) =
        .ok ⟨.bytes bs, .Png, n⟩) ∧
    (∀ ic n, LauncherIcon.decode
        (.tuple [.variant (Icon.encodeWire ic), .str "jpeg", .u32 n]) =
        .ok ⟨ic, .Jpeg, n⟩) ∧
    (∀ ic n, LauncherIcon.decode
        (.tuple [.variant (Icon.encodeWire ic), .str "svg", .u32 n]) =
        .ok ⟨ic, .Svg, n⟩) ∧
    (∀ ic tag n, tag ≠ "png" → tag ≠ "jpeg" → tag ≠ "svg" →
      LauncherIcon.decode
        (.tuple [.variant (Icon.encodeWire ic), .str tag, .u32 n]) =
        .error .unknownVariant) := by
  refine ⟨fun bs n => rfl, fun ic n => ?_, fun ic n => ?_, fun ic tag n h1 h2 h3 => ?_⟩
  · cases ic <;> rfl
  · cases ic <;> rfl
  · cases ic <;>
      simp [LauncherIcon.decode, Icon.encodeWire, Icon.decodeWire,
        IconType.deserialize, h1, h2, h3]

/-- C6 witness: the concrete reply `(<bytes>, "bogus", 10)` fails with
the unknown-variant error. -/
theorem C6_icon_tag_decode_witness :
    LauncherIcon.decode
      (.tuple [.variant (Icon.encodeWire (.bytes [7])), .str "bogus", .u32 10]) =
      .error .unknownVariant :=
  C6_icon_tag_decode.2.2.2 (.bytes [7]) "bogus" 10 (by decide) (by decide) (by decide)

/-- C7: `prepare_install` with a name, an icon and options returns a
request correlated by the options' handle token, issuing the
`PrepareInstall` call; when the completion signal arrives with status
`Success` and payload `("My App.desktop", "tok123")`, the typed result
is the pair `("My App.desktop", "tok123")`. -/
theorem C7_prepare_install_flow (w : String) (o : PrepareInstallOptions) :
    (prepare_install w "My App" (.names ["dialog-symbolic"]) o).2.handle =
      o.handle_token ∧
    (prepare_install w "My App" (.names ["dialog-symbolic"]) o).1.method =
      "PrepareInstall" ∧
    (prepare_install w "My App" (.names ["dialog-symbolic"]) o).2.response
        .Success (.tuple [.str "My App.desktop", .str "tok123"]) =
      .ok ("My App.desktop", "tok123") :=
  ⟨rfl, rfl, rfl⟩

/-- C8: decoding an encoded `LauncherIcon` triple recovers the original
value, format and size, for every icon value, each of the three formats
and every size. -/
theorem C8_icon_roundtrip (li : LauncherIcon) :
    LauncherIcon.decode li.encode = .ok li := by
  obtain ⟨ic, t, n⟩ := li
  cases ic <;> cases t <;> rfl

/-- C9: `launch` never transmits an activation-token parameter: for
every desktop file id, the options mapping sent on the wire is empty. -/
theorem C9_launch_empty_options (desktop_file_id : String) :
    (launch desktop_file_id).optionsSent = some [] ∧
    (launch desktop_file_id).method = "Launch" ∧
    (launch desktop_file_id).args = [.str desktop_file_id, .dict []] :=
  ⟨rfl, rfl, rfl⟩

/-- C10: each builder setter updates only its own field, leaving every
other field unchanged, and passing `none` to an `Option`-accepting
setter resets that field to unset. -/
theorem C10_setters_frame (o : PrepareInstallOptions) (b : Option Bool)
    (lt : LauncherType) (s : Option String) :
    (o.setModal b).modal = b ∧
    (o.setModal b).handle_token = o.handle_token ∧
    (o.setModal b).launcher_type = o.launcher_type ∧
    (o.setModal b).target = o.target ∧
    (o.setModal b).editable_name = o.editable_name ∧
    (o.setModal b).editable_icon = o.editable_icon ∧
    (o.setLauncherType lt).launcher_type = lt ∧
    (o.setLauncherType lt).handle_token = o.handle_token ∧
    (o.setLauncherType lt).modal = o.modal ∧
    (o.setLauncherType lt).target = o.target ∧
    (o.setLauncherType lt).editable_name = o.editable_name ∧
    (o.setLauncherType lt).editable_icon = o.editable_icon ∧
    (o.setTarget s).target = s ∧
    (o.setTarget s).handle_token = o.handle_token ∧
    (o.setTarget s).modal = o.modal ∧
    (o.setTarget s).launcher_type = o.launcher_type ∧
    (o.setTarget s).editable_name = o.editable_name ∧
    (o.setTarget s).editable_icon = o.editable_icon ∧
    (o.setEditableName b).editable_name = b ∧
    (o.setEditableName b).handle_token = o.handle_token ∧
    (o.setEditableName b).modal = o.modal ∧
    (o.setEditableName b).launcher_type = o.launcher_type ∧
    (o.setEditableName b).target = o.target ∧
    (o.setEditableName b).editable_icon = o.editable_icon ∧
    (o.setEditableIcon b).editable_icon = b ∧
    (o.setEditableIcon b).handle_token = o.handle_token ∧
    (o.setEditableIcon b).modal = o.modal ∧
    (o.setEditableIcon b).launcher_type = o.launcher_type ∧
    (o.setEditableIcon b).target = o.target ∧
    (o.setEditableIcon b).editable_name = o.editable_name ∧
    (o.setModal none).modal = none ∧
    (o.setTarget none).target = none ∧
    (o.setEditableName none).editable_name = none ∧
    (o.setEditableIcon none).editable_icon = none := by
  obtain _ | s := s <;>
    exact ⟨rfl, rfl, rfl, rfl, rfl, rfl, rfl, rfl, rfl, rfl, rfl, rfl, rfl, rfl,
      rfl, rfl, rfl, rfl, rfl, rfl, rfl, rfl, rfl, rfl, rfl, rfl, rfl, rfl, rfl,
      rfl, rfl, rfl, rfl, rfl⟩

end DynamicLauncher
